import Mathlib

/-!
Verification of the Artif-AI front end (src/src/App.tsx).

The program is a single React component holding four pieces of state
(`prompt`, `isGenerating`, `generatedImage`, `error`) and two async
operations (`generateImage`, `downloadImage`).  We embed the state, the
two operations, and the event-driven UI as a small-step transition
system, keeping the names and the branch structure of the source.
-/

namespace ArtifAI

/-- The `GeneratedImage` interface of App.tsx (lines 4-7). -/
structure GeneratedImage where
  url : String
  prompt : String
deriving Repr, DecidableEq

/-- The component state: the four `useState` hooks of App.tsx
(lines 10-13), plus `dlInFlight`, a count of outstanding download
fetches (the source keeps no such variable; we track it to reason
about how many network requests are in flight). -/
structure UIState where
  prompt : String
  isGenerating : Bool
  generatedImage : Option GeneratedImage
  error : String
  dlInFlight : Nat
deriving Repr, DecidableEq

/-- The initial state of the four hooks (lines 10-13): empty prompt,
not generating, no image, empty error. -/
def initState : UIState :=
  { prompt := "", isGenerating := false, generatedImage := none,
    error := "", dlInFlight := 0 }

/-- Outcome of the generate fetch as seen by the code after `await
response.json()`: a parsed body with `success: true` carrying
`imageUrl` and `prompt`; a parsed body with `success` falsy carrying an
optional `error` field (`none` models an absent field); or the fetch or
the JSON parse throwing. -/
inductive FetchOutcome where
  | success (imageUrl : String) (respPrompt : String)
  | failure (err : Option String)
  | thrown
deriving Repr, DecidableEq

/-- Helper for `jsTrim`: drop leading whitespace characters. -/
def dropWs : List Char → List Char
  | [] => []
  | c :: cs => if c.isWhitespace then dropWs cs else c :: cs

/-- JavaScript `String.prototype.trim()`: strip whitespace from both
ends (whitespace as `Char.isWhitespace`).  The source tests
`!prompt.trim()`, i.e. whether the trimmed prompt is empty. -/
def jsTrim (s : String) : String :=
  String.mk ((dropWs (dropWs s.data).reverse).reverse)

/-- JavaScript `a || b` on an optional string field: an absent field
(`undefined`) and the empty string are both falsy and give the
fallback. -/
def jsOr (field : Option String) (fallback : String) : String :=
  match field with
  | none => fallback
  | some e => if e = "" then fallback else e

/-- Lines 21-22 of `generateImage`: `setIsGenerating(true);
setError('')` — the state while the request is in flight. -/
def genStart (s : UIState) : UIState :=
  { s with isGenerating := true, error := "" }

/-- Lines 33-48 of `generateImage`: the response settles.  `success`
replaces the record with `{url: data.imageUrl, prompt: data.prompt}`
(lines 35-39); otherwise `setError(data.error || 'Failed to generate
image')` (line 41); a throw gives the network-error text (line 44);
`finally` clears `isGenerating` (line 47). -/
def genSettle (s : UIState) (o : FetchOutcome) : UIState :=
  match o with
  | .success imageUrl respPrompt =>
      { s with generatedImage := some ⟨imageUrl, respPrompt⟩,
               isGenerating := false }
  | .failure err =>
      { s with error := jsOr err "Failed to generate image",
               isGenerating := false }
  | .thrown =>
      { s with error := "Network error. Please make sure the server is running.",
               isGenerating := false }

/-- The whole of `generateImage` (lines 15-49) as a function of the
state and the fetch outcome.  Returns the final state and whether a
network request was issued.  The guard on line 16 (`!prompt.trim()`)
returns early with the validation message and no request. -/
def generateImage (s : UIState) (o : FetchOutcome) : UIState × Bool :=
  if jsTrim s.prompt = "" then
    ({ s with error := "Please enter a prompt" }, false)
  else
    (genSettle (genStart s) o, true)

/-- A file saved by the browser in `downloadImage`: the blob's source
URL and the `link.download` filename. -/
structure SavedFile where
  sourceUrl : String
  filename : String
deriving Repr, DecidableEq

/-- `downloadImage` (lines 51-71) as a function of the state and
whether the blob fetch succeeds.  Line 52 returns if there is no image.
On success the blob is saved under the name set on line 61 and the
state is untouched; the catch block (lines 67-70) sets the download
error text. -/
def downloadImage (s : UIState) (ok : Bool) : UIState × Option SavedFile :=
  match s.generatedImage with
  | none => (s, none)
  | some img =>
    if ok then
      (s, some ⟨img.url, "generated-image.png"⟩)
    else
      ({ s with error := "Failed to download image" }, none)

/-- The user-visible events of the page, plus the settling of the two
kinds of in-flight fetch. -/
inductive Event where
  | typePrompt (p : String)
  | clickGenerate
  | pressEnter
  | genSettles (o : FetchOutcome)
  | clickDownload
  | dlSettles (ok : Bool)
deriving Repr, DecidableEq

/-- One step of the UI.  `none` means the event cannot fire in this
state:
* the textarea is `disabled` while generating (line 118), blocking
  typing and the Enter key there;
* `handleKeyPress` (lines 73-77) additionally guards on
  `!isGenerating`;
* the generate button is `disabled={isGenerating || !prompt.trim()}`
  (line 124);
* the download button is rendered only inside the result panel
  (line 149 guards on `generatedImage`), and carries no `disabled`
  attribute;
* a fetch can settle only while it is outstanding. -/
def step (s : UIState) (e : Event) : Option UIState :=
  match e with
  | .typePrompt p =>
      if s.isGenerating then none
      else some { s with prompt := p }
  | .clickGenerate =>
      if s.isGenerating || jsTrim s.prompt = "" then none
      else some (genStart s)
  | .pressEnter =>
      if s.isGenerating then none
      else if jsTrim s.prompt = "" then
        some { s with error := "Please enter a prompt" }
      else some (genStart s)
  | .genSettles o =>
      if s.isGenerating then some (genSettle s o) else none
  | .clickDownload =>
      match s.generatedImage with
      | none => none
      | some _ => some { s with dlInFlight := s.dlInFlight + 1 }
  | .dlSettles ok =>
      match s.dlInFlight with
      | 0 => none
      | n + 1 =>
        if ok then some { s with dlInFlight := n }
        else some { s with dlInFlight := n, error := "Failed to download image" }

/-- States reachable from the initial hook values by UI events. -/
inductive Reachable : UIState → Prop where
  | init : Reachable initState
  | next {s s' : UIState} {e : Event} :
      Reachable s → step s e = some s' → Reachable s'

/-- The error box renders iff `error` is truthy (line 140). -/
def errorShown (s : UIState) : Bool := s.error ≠ ""

/-- The result panel renders iff `generatedImage` is non-null
(line 149). -/
def resultShown (s : UIState) : Bool := s.generatedImage.isSome

/-- The loading panel renders iff `isGenerating && !generatedImage`
(line 180). -/
def loadingShown (s : UIState) : Bool :=
  s.isGenerating && !s.generatedImage.isSome

/-- Number of outstanding network requests: the generate fetch is in
flight exactly while `isGenerating`, and `dlInFlight` counts
outstanding download fetches. -/
def outstanding (s : UIState) : Nat :=
  (if s.isGenerating then 1 else 0) + s.dlInFlight

/-- An event whose handling runs a failure branch: a generate response
parsed with `success` falsy, a generate fetch that threw, or a download
fetch that threw. -/
def isFailureEvent : Event → Bool
  | .genSettles (.failure _) => true
  | .genSettles .thrown => true
  | .dlSettles false => true
  | _ => false

/-- A concrete state with a previously generated image on display. -/
def priorResultState : UIState :=
  { prompt := "cat", isGenerating := false,
    generatedImage := some ⟨"http://img/old.png", "a cat"⟩,
    error := "", dlInFlight := 0 }

/-- A concrete state in which a generation request is in flight while a
previous result is still on display (so the result panel, with its
download button, is rendered). -/
def genAfterResultState : UIState :=
  { prompt := "cat", isGenerating := true,
    generatedImage := some ⟨"http://img/1.png", "cat"⟩,
    error := "", dlInFlight := 0 }

/-- A concrete state in which a non-empty error and a result are
displayed at once: the state after the in-flight generation of
`genAfterResultState` settles with a backend failure. -/
def errorWithResultState : UIState :=
  { prompt := "cat", isGenerating := false,
    generatedImage := some ⟨"http://img/1.png", "cat"⟩,
    error := "boom", dlInFlight := 0 }

/-! ## Helper lemmas -/

/-- Dropping leading whitespace from an all-whitespace list leaves
nothing. -/
theorem dropWs_eq_nil {l : List Char} (h : l.all Char.isWhitespace = true) :
    dropWs l = [] := by
  induction l with
  | nil => rfl
  | cons c cs ih =>
      simp only [List.all_cons, Bool.and_eq_true] at h
      simp [dropWs, h.1, ih h.2]

/-- A string that is empty or consists only of whitespace trims to the
empty string, exactly the strings on which `!prompt.trim()` is truthy. -/
theorem jsTrim_of_all_ws {s : String} (h : s.data.all Char.isWhitespace = true) :
    jsTrim s = "" := by
  unfold jsTrim
  rw [dropWs_eq_nil h]
  rfl

/-- The in-flight-over-a-result state is reachable: type a prompt,
generate successfully, then start a second generation. -/
theorem reachable_genAfterResultState : Reachable genAfterResultState := by
  have h0 : Reachable initState := Reachable.init
  have h1 : Reachable ⟨"cat", false, none, "", 0⟩ :=
    Reachable.next (e := Event.typePrompt "cat") h0 (by decide)
  have h2 : Reachable ⟨"cat", true, none, "", 0⟩ :=
    Reachable.next (e := Event.clickGenerate) h1 (by decide)
  have h3 : Reachable ⟨"cat", false, some ⟨"http://img/1.png", "cat"⟩, "", 0⟩ :=
    Reachable.next (e := Event.genSettles (.success "http://img/1.png" "cat"))
      h2 (by decide)
  exact Reachable.next (e := Event.clickGenerate) h3 (by decide)

/-- The error-with-result state is reachable: the in-flight generation
of `genAfterResultState` settles with a backend failure. -/
theorem reachable_errorWithResultState : Reachable errorWithResultState :=
  Reachable.next (e := Event.genSettles (.failure (some "boom")))
    reachable_genAfterResultState (by decide)

/-! ## Claims -/

/-- C1: for every prompt that is empty or consists only of whitespace,
`generateImage` issues no network request, leaves the generated-image
result unchanged, and sets the displayed error to
'Please enter a prompt'. -/
theorem generateImage_blank_prompt (s : UIState) (o : FetchOutcome)
    (h : s.prompt.data.all Char.isWhitespace = true) :
    (generateImage s o).2 = false ∧
    (generateImage s o).1.generatedImage = s.generatedImage ∧
    (generateImage s o).1.error = "Please enter a prompt" := by
  simp [generateImage, jsTrim_of_all_ws h]

/-- Witness for C1 at the whitespace prompt "  \t". -/
theorem generateImage_blank_prompt_witness :
    (generateImage ⟨"  \t", false, some ⟨"u", "p"⟩, "", 0⟩ .thrown).2 = false ∧
    (generateImage ⟨"  \t", false, some ⟨"u", "p"⟩, "", 0⟩ .thrown).1.generatedImage
      = (⟨"  \t", false, some ⟨"u", "p"⟩, "", 0⟩ : UIState).generatedImage ∧
    (generateImage ⟨"  \t", false, some ⟨"u", "p"⟩, "", 0⟩ .thrown).1.error
      = "Please enter a prompt" :=
  generateImage_blank_prompt ⟨"  \t", false, some ⟨"u", "p"⟩, "", 0⟩ .thrown
    (by decide)

/-- C2: whenever the response parses with `success` true, the stored
record is replaced wholesale by the response's `imageUrl` and `prompt`,
regardless of any prior result, and the error is the empty string when
the run completes (a request having been issued). -/
theorem generateImage_success (s : UIState) (url p : String)
    (h : jsTrim s.prompt ≠ "") :
    (generateImage s (.success url p)).1.generatedImage = some ⟨url, p⟩ ∧
    (generateImage s (.success url p)).1.error = "" ∧
    (generateImage s (.success url p)).2 = true := by
  simp [generateImage, h, genStart, genSettle]

/-- Witness for C2: a run over a prior result and a prior error. -/
theorem generateImage_success_witness :
    (generateImage ⟨"cat", false, some ⟨"old", "o"⟩, "oops", 0⟩
        (.success "http://img/2.png" "cat")).1.generatedImage
      = some ⟨"http://img/2.png", "cat"⟩ ∧
    (generateImage ⟨"cat", false, some ⟨"old", "o"⟩, "oops", 0⟩
        (.success "http://img/2.png" "cat")).1.error = "" ∧
    (generateImage ⟨"cat", false, some ⟨"old", "o"⟩, "oops", 0⟩
        (.success "http://img/2.png" "cat")).2 = true :=
  generateImage_success ⟨"cat", false, some ⟨"old", "o"⟩, "oops", 0⟩
    "http://img/2.png" "cat" (by decide)

/-- C3 counterexample: a failed run does not clear the prior result.
From `priorResultState` (which displays a previous image), a backend
failure leaves the record in place, contradicting the claim that the
generated-image result is cleared. -/
theorem generateImage_failure_keeps_result_cex :
    (generateImage priorResultState (.failure (some "boom"))).1.error = "boom" ∧
    (generateImage priorResultState (.failure (some "boom"))).1.generatedImage
      ≠ none ∧
    (generateImage priorResultState (.failure (some "boom"))).1.generatedImage
      = priorResultState.generatedImage := by
  decide

/-- C3 amended: on every failed run (backend failure or thrown fetch)
the displayed error is the failure text and the generated-image record
is left unchanged — a prior result stays rendered. -/
theorem generateImage_failure_amended (s : UIState) (err : Option String)
    (h : jsTrim s.prompt ≠ "") :
    (generateImage s (.failure err)).1.generatedImage = s.generatedImage ∧
    (generateImage s (.failure err)).1.error
      = jsOr err "Failed to generate image" ∧
    (generateImage s .thrown).1.generatedImage = s.generatedImage ∧
    (generateImage s .thrown).1.error
      = "Network error. Please make sure the server is running." := by
  simp [generateImage, h, genStart, genSettle]

/-- Witness for the amended C3 at a concrete failing run. -/
theorem generateImage_failure_amended_witness :
    (generateImage priorResultState (.failure (some "boom"))).1.generatedImage
      = priorResultState.generatedImage ∧
    (generateImage priorResultState (.failure (some "boom"))).1.error
      = jsOr (some "boom") "Failed to generate image" ∧
    (generateImage priorResultState .thrown).1.generatedImage
      = priorResultState.generatedImage ∧
    (generateImage priorResultState .thrown).1.error
      = "Network error. Please make sure the server is running." :=
  generateImage_failure_amended priorResultState (some "boom") (by decide)

/-- C4 counterexample: the error box and the result panel render
simultaneously in a reachable state — after a failed regeneration over
a prior result — so the three rendering states are not mutually
exclusive. -/
theorem render_error_and_result_cex :
    Reachable errorWithResultState ∧
    errorShown errorWithResultState = true ∧
    resultShown errorWithResultState = true :=
  ⟨reachable_errorWithResultState, by decide, by decide⟩

/-- C4 amended: the loading panel and the result panel are never
rendered simultaneously (the loading guard requires `generatedImage`
to be null), but the error box can be rendered together with the
result panel in a reachable state. -/
theorem render_states_amended :
    (∀ s : UIState, (loadingShown s && resultShown s) = false) ∧
    (∃ s : UIState, Reachable s ∧ errorShown s = true ∧ resultShown s = true) := by
  constructor
  · intro s
    cases hg : s.generatedImage <;>
      simp [loadingShown, resultShown, hg]
  · exact ⟨errorWithResultState, reachable_errorWithResultState,
      by decide, by decide⟩

/-- C5 counterexample: the failure path of `downloadImage` does mutate
the displayed state — it overwrites the error text — so the state is
not the same after `downloadImage` on both paths. -/
theorem downloadImage_failure_mutates_cex :
    (downloadImage priorResultState false).1.error ≠ priorResultState.error ∧
    (downloadImage priorResultState false).1.error
      = "Failed to download image" := by
  decide

/-- C5 amended: with an image on display, the success path of
`downloadImage` saves the image bytes under the displayed URL and
leaves the state exactly unchanged; the failure path leaves the prompt
and the generated-image record unchanged but sets the displayed error
to 'Failed to download image'. -/
theorem downloadImage_amended (s : UIState) (img : GeneratedImage)
    (h : s.generatedImage = some img) :
    (downloadImage s true).1 = s ∧
    (downloadImage s true).2 = some ⟨img.url, "generated-image.png"⟩ ∧
    (downloadImage s false).1.prompt = s.prompt ∧
    (downloadImage s false).1.generatedImage = s.generatedImage ∧
    (downloadImage s false).1.error = "Failed to download image" := by
  simp [downloadImage, h]

/-- Witness for the amended C5 at `priorResultState`. -/
theorem downloadImage_amended_witness :
    (downloadImage priorResultState true).1 = priorResultState ∧
    (downloadImage priorResultState true).2
      = some ⟨(⟨"http://img/old.png", "a cat"⟩ : GeneratedImage).url,
              "generated-image.png"⟩ ∧
    (downloadImage priorResultState false).1.prompt = priorResultState.prompt ∧
    (downloadImage priorResultState false).1.generatedImage
      = priorResultState.generatedImage ∧
    (downloadImage priorResultState false).1.error
      = "Failed to download image" :=
  downloadImage_amended priorResultState ⟨"http://img/old.png", "a cat"⟩
    (by decide)

/-- C6: whenever a step changes the displayed error to a non-empty
text, that text is either the empty-prompt validation message or was
written by a failure branch (non-success JSON, a thrown generate fetch,
or a thrown download fetch); no operation sets any other error text. -/
theorem error_texts_classified (s : UIState) (e : Event) (s' : UIState)
    (hstep : step s e = some s') (hchanged : s'.error ≠ s.error)
    (hne : s'.error ≠ "") :
    s'.error = "Please enter a prompt" ∨ isFailureEvent e = true := by
  cases e with
  | typePrompt p =>
      by_cases hg : s.isGenerating <;> simp [step, hg] at hstep
      simp [← hstep] at hchanged
  | clickGenerate =>
      by_cases hg : s.isGenerating || jsTrim s.prompt = "" <;>
        simp [step, hg] at hstep
      simp [← hstep, genStart] at hne
  | pressEnter =>
      by_cases hg : s.isGenerating
      · simp [step, hg] at hstep
      · by_cases hb : jsTrim s.prompt = ""
        · simp [step, hg, hb] at hstep
          simp [← hstep]
        · simp [step, hg, hb] at hstep
          simp [← hstep, genStart] at hne
  | genSettles o =>
      by_cases hg : s.isGenerating <;> simp [step, hg] at hstep
      cases o with
      | success url p => simp [genSettle, ← hstep] at hchanged
      | failure err => simp [isFailureEvent]
      | thrown => simp [isFailureEvent]
  | clickDownload =>
      cases hg : s.generatedImage <;> simp [step, hg] at hstep
      simp [← hstep] at hchanged
  | dlSettles ok =>
      cases hn : s.dlInFlight with
      | zero => simp [step, hn] at hstep
      | succ n =>
          cases ok with
          | true =>
              simp [step, hn] at hstep
              simp [← hstep] at hchanged
          | false => simp [isFailureEvent]

/-- Witness for C6: pressing Enter on a blank prompt surfaces the
validation message. -/
theorem error_texts_classified_witness :
    step initState Event.pressEnter
      = some ⟨"", false, none, "Please enter a prompt", 0⟩ ∧
    ((⟨"", false, none, "Please enter a prompt", 0⟩ : UIState).error
        = "Please enter a prompt"
      ∨ isFailureEvent Event.pressEnter = true) :=
  ⟨by decide,
   error_texts_classified initState Event.pressEnter
     ⟨"", false, none, "Please enter a prompt", 0⟩
     (by decide) (by decide) (by decide)⟩

/-- C7 counterexample: in a reachable state with a generation in
flight and a result on display, the download button is still live and
clicking it starts a second network request, so two requests are
outstanding at once. -/
theorem download_during_generation_cex :
    Reachable genAfterResultState ∧
    genAfterResultState.isGenerating = true ∧
    outstanding genAfterResultState = 1 ∧
    step genAfterResultState Event.clickDownload
      = some ⟨"cat", true, some ⟨"http://img/1.png", "cat"⟩, "", 1⟩ ∧
    outstanding ⟨"cat", true, some ⟨"http://img/1.png", "cat"⟩, "", 1⟩ = 2 :=
  ⟨reachable_genAfterResultState, by decide, by decide, by decide, by decide⟩

/-- C7 amended: while a generation is in flight neither the generate
button, nor the Enter key, nor typing can fire (so no second
generation starts), but the download button remains active: in a
reachable in-flight state a download click starts another request,
bringing the outstanding count to two. -/
theorem single_request_amended :
    (∀ (p q e : String) (g : Option GeneratedImage) (n : Nat),
       step ⟨p, true, g, e, n⟩ Event.clickGenerate = none ∧
       step ⟨p, true, g, e, n⟩ Event.pressEnter = none ∧
       step ⟨p, true, g, e, n⟩ (Event.typePrompt q) = none) ∧
    (∃ s s' : UIState, Reachable s ∧ s.isGenerating = true ∧
       step s Event.clickDownload = some s' ∧ outstanding s' = 2) := by
  constructor
  · intro p q e g n
    refine ⟨?_, ?_, ?_⟩ <;> simp [step]
  · exact ⟨genAfterResultState,
      ⟨"cat", true, some ⟨"http://img/1.png", "cat"⟩, "", 1⟩,
      reachable_genAfterResultState, rfl, by decide, by decide⟩

/-- C8: every successful `downloadImage` saves the file under exactly
the name 'generated-image.png'. -/
theorem downloadImage_filename (s : UIState) (ok : Bool) (f : SavedFile)
    (h : (downloadImage s ok).2 = some f) :
    f.filename = "generated-image.png" := by
  unfold downloadImage at h
  cases hg : s.generatedImage with
  | none => rw [hg] at h; simp at h
  | some img =>
      rw [hg] at h
      cases ok with
      | true => simp at h; rw [← h]
      | false => simp at h

/-- Witness for C8 at a concrete successful download. -/
theorem downloadImage_filename_witness :
    (⟨"http://img/old.png", "generated-image.png"⟩ : SavedFile).filename
      = "generated-image.png" :=
  downloadImage_filename priorResultState true
    ⟨"http://img/old.png", "generated-image.png"⟩ (by decide)

/-- C9: every run past the empty-prompt validation is generating while
the request is in flight (`genStart` sets the flag before the fetch)
and ends with `isGenerating` false on every settling path, so a single
run never leaves the UI stuck loading. -/
theorem generateImage_loading_flag (s : UIState) (o : FetchOutcome)
    (h : jsTrim s.prompt ≠ "") :
    (genStart s).isGenerating = true ∧
    (generateImage s o).1.isGenerating = false := by
  refine ⟨rfl, ?_⟩
  cases o <;> simp [generateImage, h, genStart, genSettle]

/-- Witness for C9 at a concrete run. -/
theorem generateImage_loading_flag_witness :
    (genStart ⟨"cat", false, none, "", 0⟩).isGenerating = true ∧
    (generateImage ⟨"cat", false, none, "", 0⟩ .thrown).1.isGenerating
      = false :=
  generateImage_loading_flag ⟨"cat", false, none, "", 0⟩ .thrown (by decide)

/-- C10: a `success: false` response whose error field is absent or
empty surfaces the fallback text 'Failed to generate image'. -/
theorem generateImage_error_fallback (s : UIState)
    (h : jsTrim s.prompt ≠ "") :
    (generateImage s (.failure none)).1.error = "Failed to generate image" ∧
    (generateImage s (.failure (some ""))).1.error
      = "Failed to generate image" := by
  simp [generateImage, h, genStart, genSettle, jsOr]

/-- Witness for C10 at a concrete run. -/
theorem generateImage_error_fallback_witness :
    (generateImage ⟨"cat", false, none, "", 0⟩ (.failure none)).1.error
      = "Failed to generate image" ∧
    (generateImage ⟨"cat", false, none, "", 0⟩ (.failure (some ""))).1.error
      = "Failed to generate image" :=
  generateImage_error_fallback ⟨"cat", false, none, "", 0⟩ (by decide)

end ArtifAI
